import Mathlib

/-!
Shallow embedding of the simulation core of a small Phaser tactical game
(source files src/scenes/Game.ts and src/variables.ts).

Conventions of the embedding:
* JS numbers are idealised as exact arithmetic: ℚ where the relevant code
  is pure arithmetic with comparisons (so that the definitions are
  executable and decidable), ℝ where the code uses trigonometry or square
  roots.
* Where the code compares a Euclidean distance against a positive bound
  r, the ℚ-valued fragments compare the squared distance against r^2,
  which is equivalent for nonnegative r.
* JS object references are modelled as numeric ids into an explicit heap
  list; removing an id from an index list does not remove the object from
  the heap, mirroring the fact that a JS object outlives its removal from
  an array.
-/

namespace Sim

/-- The ship type tags of variables.ts. -/
inductive ShipType where
  | corvette
  | cruiser
  | enemy
  deriving DecidableEq, Repr

/-- VARIABLES[t].speed (pixels per second). -/
def shipSpeed : ShipType → ℚ
  | .corvette => 30
  | .cruiser => 15
  | .enemy => 10

/-- VARIABLES[t].acceleration. -/
def shipAcceleration : ShipType → ℚ
  | .corvette => 150
  | .cruiser => 100
  | .enemy => 50

/-- VARIABLES[t].size. -/
def shipSize : ShipType → ℚ
  | .corvette => 24
  | .cruiser => 24
  | .enemy => 24

/-- VARIABLES[t].health. -/
def shipHealth : ShipType → ℚ
  | .corvette => 100
  | .cruiser => 150
  | .enemy => 50

/-- VARIABLES[t].weapon.fireRate (shots per second). -/
def weaponFireRate : ShipType → ℚ
  | .corvette => 1
  | .cruiser => 1/2
  | .enemy => 1

/-- VARIABLES[t].weapon.damage. -/
def weaponDamage : ShipType → ℚ
  | .corvette => 1
  | .cruiser => 1
  | .enemy => 1

/-- VARIABLES[t].weapon.range. -/
def weaponRange : ShipType → ℚ
  | .corvette => 150
  | .cruiser => 200
  | .enemy => 100

/-- VARIABLES.arriveThreshold. -/
def arriveThreshold : ℚ := 3

/-- VARIABLES.bullet.speed, as a real (used by shoot, which normalizes a
direction vector). -/
def bulletSpeedR : ℝ := 200

/-- VARIABLES.bullet.lifetime in ms. -/
def bulletLifetimeR : ℝ := 2000

/-! ## Fire-rate gating (Game.ts, tryShoot, lines 896-905)

`tryShoot` fires iff `currentTime - shooter.lastFireTime >= 1000 /
shipData.weapon.fireRate`, and on success sets `lastFireTime` to
`currentTime`.  Times are in milliseconds. -/

/-- tryShoot: returns whether the shot fires, paired with the shooter's
updated lastFireTime. -/
def tryShoot (currentTime lastFireTime : ℚ) (t : ShipType) : Bool × ℚ :=
  if currentTime - lastFireTime ≥ 1000 / weaponFireRate t then
    (true, currentTime)
  else
    (false, lastFireTime)

/-! ## Combat: bullet collision pass (Game.ts, checkBulletCollisions,
lines 854-894)

The ship record, restricted to the fields combat resolution reads and
writes: identity, type tag, gameObject position, health. -/

structure CombatShip where
  id : ℕ
  type : ShipType
  x : ℚ
  y : ℚ
  health : ℚ
  maxHealth : ℚ
  deriving DecidableEq, Repr

/-- Squared Euclidean distance.  Encodes the code's
`Vector2.distance(p, q) < r` tests as `distSq p q < r^2`. -/
def distSq (x₁ y₁ x₂ y₂ : ℚ) : ℚ := (x₁ - x₂)^2 + (y₁ - y₂)^2

/-- Damage resolution at hit time (Game.ts lines 869-874):
`let damage = 10; if (shooter) damage = VARIABLES[shooter.type].weapon.damage`.
The stored shooter entry can be `undefined` when the parallel bullet arrays
have desynced; only then does the default 10 apply. -/
def hitDamage (shooterType : Option ShipType) : ℚ :=
  match shooterType with
  | some t => weaponDamage t
  | none => 10

/-- checkBulletCollisions (Game.ts lines 854-894).  The source iterates
`this.ships.forEach(...)` with no early exit: after a hit it destroys the
bullet and splices the bullet arrays, but keeps visiting later ships, so a
single bullet can damage several ships in one tick.  When a hit kills a
ship, `destroyShip` splices it out of `this.ships` while the forEach is
running, which makes the iteration skip the element that followed the dead
ship (JS forEach semantics on a shrinking array).  Both behaviours are
reproduced here: on a surviving hit we keep iterating the tail; on a
killing hit we drop the dead ship and also skip the next element. -/
def checkBulletCollisions (bulletX bulletY : ℚ) (shooter : Option CombatShip) :
    List CombatShip → List CombatShip
  | [] => []
  | ship :: rest =>
    if some ship.id = shooter.map (·.id) then
      ship :: checkBulletCollisions bulletX bulletY shooter rest
    else if distSq bulletX bulletY ship.x ship.y < (shipSize ship.type / 2)^2 then
      let damage := hitDamage (shooter.map (·.type))
      let h' := ship.health - damage
      if h' ≤ 0 then
        match rest with
        | [] => []
        | next :: rest' => next :: checkBulletCollisions bulletX bulletY shooter rest'
      else
        { ship with health := h' } :: checkBulletCollisions bulletX bulletY shooter rest
    else
      ship :: checkBulletCollisions bulletX bulletY shooter rest

/-! ## Speed integration (Game.ts, approach lines 1143-1147 and
updateShip lines 558-561) -/

/-- approach: move current toward target by at most maxDelta, clamped. -/
def approach (current target maxDelta : ℚ) : ℚ :=
  if current < target then min (current + maxDelta) target
  else if current > target then max (current - maxDelta) target
  else current

/-- The speed step of updateShip:
`desired = ship.target ? shipData.speed : 0`;
`accel = max(currentSpeed, desired) / (shipData.acceleration / 100)`;
`currentSpeed = approach(currentSpeed, desired, accel * dt)`. -/
def speedUpdate (t : ShipType) (currentSpeed : ℚ) (hasTarget : Bool) (dt : ℚ) : ℚ :=
  let desired := if hasTarget then shipSpeed t else 0
  let accel := max currentSpeed desired / (shipAcceleration t / 100)
  approach currentSpeed desired (accel * dt)

/-! ## Entity store and destruction (Game.ts, destroyShip lines 987-1021)

The heap models the JS object graph: `objects` maps an id to the ship
object (with its followTarget reference, itself an id).  The index
collections `ships`, `enemyShips`, `selectedShips`, `circularPaths` and
the enemy-movement maps hold ids.  destroyShip removes the dead ship's id
from every index collection but never touches the heap: the object, and
every other object's followTarget reference to it, survive. -/

structure ShipObj where
  id : ℕ
  type : ShipType
  followTarget : Option ℕ
  deriving DecidableEq, Repr

structure SceneState where
  objects : List (ℕ × ShipObj)
  ships : List ℕ
  enemyShips : List ℕ
  selectedShips : List ℕ
  circularPaths : List ℕ
  enemyMovementTimers : List ℕ
  enemyMovementDirections : List ℕ
  deriving DecidableEq, Repr

/-- destroyShip: splice out of this.ships (first occurrence), out of
this.enemyShips when the type is enemy, delete from the selection set,
from circularPaths, and from the enemy movement maps.  The physical
object destruction (gameObject, healthBar, dots) is visual only; the
heap entry and other ships' followTarget fields are untouched. -/
def destroyShip (s : ShipObj) (st : SceneState) : SceneState :=
  { st with
    ships := st.ships.erase s.id,
    enemyShips := if s.type = .enemy then st.enemyShips.erase s.id else st.enemyShips,
    selectedShips := st.selectedShips.erase s.id,
    circularPaths := st.circularPaths.erase s.id,
    enemyMovementTimers :=
      if s.type = .enemy then st.enemyMovementTimers.erase s.id else st.enemyMovementTimers,
    enemyMovementDirections :=
      if s.type = .enemy then st.enemyMovementDirections.erase s.id else st.enemyMovementDirections }

/-- The guard of the follow branch of updateShip (Game.ts lines 563-564):
`if (ship.followTarget && ship.followTarget.gameObject)`.  In JS both
tests read through live references, so they stay truthy after the
followed ship has been destroyed; in the heap model the lookup of the
followed id always succeeds because destroyShip never deletes heap
entries. -/
def followBranchActive (st : SceneState) (i : ℕ) : Bool :=
  match (st.objects.lookup i).bind (·.followTarget) with
  | some j => (st.objects.lookup j).isSome
  | none => false

/-! ## Rotation interpolation (Game.ts, approachRotation lines 1979-1991)

The two while-loops of the source are the recursive helpers wrapDown
(`while (diff > Math.PI) diff -= 2π`) and wrapUp
(`while (diff < -Math.PI) diff += 2π`). -/

/-- First while-loop of approachRotation. -/
noncomputable def wrapDown (d : ℝ) : ℝ :=
  if Real.pi < d then wrapDown (d - 2 * Real.pi) else d
termination_by (⌈(d - Real.pi) / (2 * Real.pi)⌉).toNat
decreasing_by
  rename_i h
  have h2 : (0:ℝ) < 2 * Real.pi := by positivity
  have hx : 0 < (d - Real.pi) / (2 * Real.pi) := div_pos (by linarith) h2
  have hceil : 0 < ⌈(d - Real.pi) / (2 * Real.pi)⌉ := Int.ceil_pos.mpr hx
  have heq : (d - 2 * Real.pi - Real.pi) / (2 * Real.pi)
      = (d - Real.pi) / (2 * Real.pi) - 1 := by
    field_simp
    ring
  rw [heq, Int.ceil_sub_one]
  omega

/-- Second while-loop of approachRotation. -/
noncomputable def wrapUp (d : ℝ) : ℝ :=
  if d < -Real.pi then wrapUp (d + 2 * Real.pi) else d
termination_by (⌈(-Real.pi - d) / (2 * Real.pi)⌉).toNat
decreasing_by
  rename_i h
  have h2 : (0:ℝ) < 2 * Real.pi := by positivity
  have hx : 0 < (-Real.pi - d) / (2 * Real.pi) := div_pos (by linarith) h2
  have hceil : 0 < ⌈(-Real.pi - d) / (2 * Real.pi)⌉ := Int.ceil_pos.mpr hx
  have heq : (-Real.pi - (d + 2 * Real.pi)) / (2 * Real.pi)
      = (-Real.pi - d) / (2 * Real.pi) - 1 := by
    field_simp
    ring
  rw [heq, Int.ceil_sub_one]
  omega

/-- approachRotation: wrap the difference with the two while-loops, snap
to the target when the wrapped difference is within one step, otherwise
step by `Math.sign(diff) * maxDelta`. -/
noncomputable def approachRotation (current target maxDelta : ℝ) : ℝ :=
  let diff := wrapUp (wrapDown (target - current))
  if |diff| < maxDelta then target
  else current + Real.sign diff * maxDelta

/-- Claim-side definition, following the spec's words for C7: the
canonical representative of an angle in the interval (−π, π]. -/
noncomputable def specWrapIoc (θ : ℝ) : ℝ :=
  θ + 2 * Real.pi * ⌊(Real.pi - θ) / (2 * Real.pi)⌋

/-! ## Orbit integration (Game.ts, updateCircularPaths lines 1066-1087) -/

structure OrbitRec where
  centerX : ℝ
  centerY : ℝ
  radius : ℝ
  startAngle : ℝ

/-- One ship's step of updateCircularPaths: when currentSpeed > 0,
advance the stored angle by `(currentSpeed / radius) * (delta / 1000)`
and place the ship on the circle; otherwise do nothing. -/
noncomputable def updateCircularPaths (posX posY currentSpeed : ℝ) (pd : OrbitRec)
    (delta : ℝ) : (ℝ × ℝ) × OrbitRec :=
  if 0 < currentSpeed then
    let angularVelocity := currentSpeed / pd.radius
    let a' := pd.startAngle + angularVelocity * (delta / 1000)
    ((pd.centerX + Real.cos a' * pd.radius, pd.centerY + Real.sin a' * pd.radius),
      { pd with startAngle := a' })
  else ((posX, posY), pd)

/-- Real Euclidean distance (for the orbit-radius and arrival tests that
the ℝ-valued fragments make). -/
noncomputable def rdist (x₁ y₁ x₂ y₂ : ℝ) : ℝ :=
  Real.sqrt ((x₁ - x₂)^2 + (y₁ - y₂)^2)

/-! ## Follow-target recomputation (Game.ts, updateShip lines 564-576)

The code sets `offsetDistance = -200` and computes
`behind = followedPos - (cos, sin)(rotation) * offsetDistance`, which is
followedPos + 200·(cos, sin)(rotation): a point 200 px in front of the
followed ship along its facing, although the adjacent comment says
"place follower 80 px behind". -/

noncomputable def followTargetPos (followedX followedY followedRotation : ℝ) : ℝ × ℝ :=
  let offsetDistance : ℝ := -200
  (followedX - Real.cos followedRotation * offsetDistance,
   followedY - Real.sin followedRotation * offsetDistance)

/-! ## Command state machine (Game.ts, finishRotation lines 1906-1976,
unlockWaypoint 1894-1903, exitTargetingMode 1783-1791,
startCircularPath 1462-1473, updateShipFollowingPosition 1580-1603,
moveToward 608-684, createShip 1350-1414)

The command-facing ship record: position, waypoint queue with the
parallel facing-direction list, immediate target, path bookkeeping,
rotation goal, orbit descriptor (membership in circularPaths) and
follow reference. -/

structure CmdShip where
  id : ℕ
  posX : ℝ
  posY : ℝ
  waypoints : List (ℝ × ℝ)
  waypointDirections : List ℝ
  target : Option (ℝ × ℝ)
  pathStart : Option (ℝ × ℝ)
  targetRotation : ℝ
  orbit : Option OrbitRec
  followTarget : Option ℕ

/-- The transient gesture state of the scene. -/
structure GestureState where
  isWaypointLocked : Bool
  lockedEnemy : Option ℕ
  lockedDistance : ℝ
  lockedWaypointPositionX : ℝ
  lockedWaypointPositionY : ℝ
  rotationStartX : ℝ
  rotationStartY : ℝ
  isTargeting : Bool
  targetedEnemy : Option ℕ
  isRotating : Bool
  rotationShip : Option ℕ

/-- exitTargetingMode (Game.ts 1783-1791), state part. -/
def exitTargetingMode (g : GestureState) : GestureState :=
  { g with isTargeting := false, targetedEnemy := none }

/-- unlockWaypoint (Game.ts 1894-1903): clears the lock flag, the locked
enemy and the locked distance; lockedWaypointPosition itself is left as
it was. -/
def unlockWaypoint (g : GestureState) : GestureState :=
  { g with isWaypointLocked := false, lockedEnemy := none, lockedDistance := 0 }

/-- Math.atan2(y, x), embedded as the complex argument of x + y·i. -/
noncomputable def atan2 (y x : ℝ) : ℝ := Complex.arg ⟨x, y⟩

/-- The per-ship body of finishRotation (the selectedShips.forEach at
Game.ts 1923-1955, followed by the second forEach at 1958-1971 that sets
the rotation when the drag exceeded the threshold).  `g` is the gesture
state as it stands when the forEach runs, i.e. after exitTargetingMode
and unlockWaypoint have already executed. -/
noncomputable def finishRotationShip (g : GestureState) (clickX clickY : ℝ)
    (append : Bool) (ship : CmdShip) : CmdShip :=
  let deltaX := clickX - g.rotationStartX
  let deltaY := clickY - g.rotationStartY
  let distance := Real.sqrt (deltaX^2 + deltaY^2)
  let movementTarget : ℝ × ℝ :=
    if g.isWaypointLocked = true then (g.lockedWaypointPositionX, g.lockedWaypointPositionY)
    else (g.rotationStartX, g.rotationStartY)
  let waypointDirection := if distance > 10 then atan2 deltaY deltaX else ship.targetRotation
  let s1 :=
    if append = true ∧ ship.waypoints ≠ [] then
      { ship with
        orbit := none,
        waypoints := ship.waypoints ++ [movementTarget],
        waypointDirections := ship.waypointDirections ++ [waypointDirection] }
    else
      { ship with
        orbit := none,
        waypoints := [movementTarget],
        waypointDirections := [waypointDirection],
        pathStart := some (ship.posX, ship.posY),
        target := some movementTarget }
  let s2 :=
    if append = false ∧ s1.waypointDirections ≠ [] then
      { s1 with targetRotation := s1.waypointDirections.headI }
    else s1
  if distance > 10 ∧ append = false then
    { s2 with targetRotation := atan2 deltaY deltaX }
  else s2

/-- finishRotation (Game.ts 1906-1976), state part: guard on
rotationShip, clear targeting and the waypoint lock FIRST, then apply
the per-ship command to every selected ship, then reset the rotation
gesture. -/
noncomputable def finishRotation (g : GestureState) (clickX clickY : ℝ) (append : Bool)
    (selected : List CmdShip) : GestureState × List CmdShip :=
  match g.rotationShip with
  | none => (g, selected)
  | some _ =>
    let g1 := exitTargetingMode g
    let g2 := unlockWaypoint g1
    let ships' := selected.map (finishRotationShip g2 clickX clickY append)
    ({ g2 with isRotating := false, rotationShip := none }, ships')

/-- startCircularPath (Game.ts 1462-1473): set the orbit descriptor,
clear `waypoints`, `target` and `pathStart`.  `waypointDirections` is NOT
cleared by the source. -/
noncomputable def startCircularPath (ship : CmdShip) (centerX centerY radius : ℝ) :
    CmdShip :=
  let startAngle := atan2 (ship.posY - centerY) (ship.posX - centerX)
  { ship with
    orbit := some ⟨centerX, centerY, radius, startAngle⟩,
    waypoints := [], target := none, pathStart := none }

/-- updateShipFollowingPosition (Game.ts 1580-1603), ship part: set the
follow reference, seed an immediate target 80 px behind the enemy's
facing, and clear both waypoint lists.  (The rotation-indicator gesture
fields it also sets are visual bookkeeping.) -/
noncomputable def updateShipFollowingPosition (currentShip : CmdShip) (enemyId : ℕ)
    (enemyX enemyY enemyRotation : ℝ) : CmdShip :=
  { currentShip with
    followTarget := some enemyId,
    target := some (enemyX - Real.cos enemyRotation * 80, enemyY - Real.sin enemyRotation * 80),
    waypoints := [],
    waypointDirections := [] }

/-- The waypoint-arrival block of moveToward (duplicated in the source at
Game.ts 620-643 for the under-threshold case and 652-678 for the
overshoot clamp; both blocks are identical): snap to the target, take
the direction stored for the reached waypoint (if any) as the new
targetRotation, shift both parallel arrays, and return the next waypoint
(updating pathStart accordingly). -/
noncomputable def arriveAtWaypoint (ship : CmdShip) (tx ty : ℝ) :
    CmdShip × Option (ℝ × ℝ) :=
  let currentWaypointDirection := ship.waypointDirections.head?
  let s1 := { ship with
    posX := tx, posY := ty,
    targetRotation := currentWaypointDirection.getD ship.targetRotation,
    waypoints := ship.waypoints.tail,
    waypointDirections := ship.waypointDirections.tail }
  let next := s1.waypoints.head?
  let s2 := { s1 with pathStart := if next.isSome then some (tx, ty) else none }
  (s2, next)

/-- moveToward (Game.ts 608-684): returns the moved ship and the next
target (the source mutates the ship and returns the target, which
updateShip assigns back to ship.target). -/
noncomputable def moveToward (ship : CmdShip) (target : Option (ℝ × ℝ))
    (effectiveSpeed delta : ℝ) : CmdShip × Option (ℝ × ℝ) :=
  match target with
  | none => (ship, none)
  | some (tx, ty) =>
    let distance := rdist ship.posX ship.posY tx ty
    if distance < (arriveThreshold : ℝ) then
      arriveAtWaypoint ship tx ty
    else
      let step := effectiveSpeed * delta / 1000
      let dirX := (tx - ship.posX) / distance
      let dirY := (ty - ship.posY) / distance
      let nextX := ship.posX + dirX * step
      let nextY := ship.posY + dirY * step
      if rdist nextX nextY tx ty > distance then
        arriveAtWaypoint ship tx ty
      else
        ({ ship with posX := nextX, posY := nextY }, some (tx, ty))

/-- createShip (Game.ts 1350-1414), command-facing fields: fresh ships
start with empty waypoint lists, no target, no path, facing −π/2. -/
noncomputable def createShip (_t : ShipType) (x y : ℝ) (newId : ℕ) : CmdShip :=
  { id := newId, posX := x, posY := y, waypoints := [], waypointDirections := [],
    target := none, pathStart := none, targetRotation := -(Real.pi / 2),
    orbit := none, followTarget := none }

/-! ## Projectile spawn (Game.ts, shoot, lines 908-938) -/

structure BulletRec where
  posX : ℝ
  posY : ℝ
  velX : ℝ
  velY : ℝ
  timer : ℝ
  shooterId : Option ℕ
  shooterType : Option ShipType

/-- shoot: spawn a bullet at the shooter's position with velocity
`normalize(target − shooter) * bullet.speed`, lifetime from config, and
push the shooter onto bulletShooters (the stored reference is the only
per-bullet combat datum; the entry is written once here and never
reassigned). -/
noncomputable def shoot (shooterId : ℕ) (shooterType : ShipType)
    (shooterX shooterY targetX targetY : ℝ) : BulletRec :=
  let len := Real.sqrt ((targetX - shooterX)^2 + (targetY - shooterY)^2)
  let dirX := (targetX - shooterX) / len
  let dirY := (targetY - shooterY) / len
  { posX := shooterX, posY := shooterY,
    velX := dirX * bulletSpeedR, velY := dirY * bulletSpeedR,
    timer := bulletLifetimeR,
    shooterId := some shooterId, shooterType := some shooterType }

/-- Claim-side definition, following the spec's words for C5: the damage
value a projectile would carry if it were snapshotted from the shooter's
weapon stat at spawn time. -/
def spawnSnapshotDamage (shooterType : ShipType) : ℚ := weaponDamage shooterType

/-! ## Concrete scenario data used by the per-claim theorems. -/

/-- Shooter for the C3 collision scenario. -/
def shooterC : CombatShip := ⟨0, .corvette, 1000, 1000, 100, 100⟩

/-- First ship in iteration order within hit range of the C3 bullet. -/
def shipA : CombatShip := ⟨1, .enemy, 0, 0, 50, 50⟩

/-- Second ship in iteration order, also within hit range of the C3 bullet. -/
def shipB : CombatShip := ⟨2, .enemy, 1, 0, 50, 50⟩

/-- C4 witness ship. -/
def invDemoShip : CombatShip := ⟨3, .corvette, 0, 0, 100, 100⟩

/-- Ship A of the C1 scenario: follows ship 2. -/
def shipAObj : ShipObj := ⟨1, .corvette, some 2⟩

/-- Ship B of the C1 scenario: the hostile being destroyed. -/
def shipBObj : ShipObj := ⟨2, .enemy, none⟩

/-- The C1 scene: both ships on the heap and in this.ships, B hostile,
A selected, A has a circular path, B in the enemy-movement maps. -/
def demoScene : SceneState :=
  ⟨[(1, shipAObj), (2, shipBObj)], [1, 2], [2], [1], [1], [2], [2]⟩

/-- Gesture state for the C2 scenario: the waypoint lock is active on
enemy 2, locked position (500, 500), gesture start (10, 10). -/
noncomputable def lockedGesture : GestureState :=
  { isWaypointLocked := true, lockedEnemy := some 2, lockedDistance := 40,
    lockedWaypointPositionX := 500, lockedWaypointPositionY := 500,
    rotationStartX := 10, rotationStartY := 10,
    isTargeting := false, targetedEnemy := none,
    isRotating := true, rotationShip := some 1 }

/-- A selected ship with no queued waypoints (C2 and C10 witnesses). -/
noncomputable def demoCmdShip : CmdShip :=
  { id := 1, posX := 0, posY := 0, waypoints := [], waypointDirections := [],
    target := none, pathStart := none, targetRotation := 0,
    orbit := none, followTarget := none }

/-- A ship with one queued waypoint and its one direction (C10
counterexample input). -/
noncomputable def orbitDemoShip : CmdShip :=
  { id := 1, posX := 0, posY := 0, waypoints := [(0, 0)], waypointDirections := [0],
    target := some (0, 0), pathStart := some (0, 0), targetRotation := 0,
    orbit := none, followTarget := none }

/-! # Theorems -/

/-- C6: a shot is fired on an attempt iff now − lastFireTimestamp ≥
1000 / fireRate; a successful shot updates lastFireTimestamp to now; and
with fireRate 1 a shot attempted 999 ms after the previous one is
rejected while one at exactly 1000 ms elapsed succeeds. -/
theorem tryShoot_fire_gate :
    (∀ (now lastTime : ℚ) (t : ShipType),
        ((tryShoot now lastTime t).1 = true ↔ now - lastTime ≥ 1000 / weaponFireRate t)
        ∧ ((tryShoot now lastTime t).1 = true → (tryShoot now lastTime t).2 = now))
    ∧ (tryShoot 999 0 .corvette).1 = false
    ∧ (tryShoot 1000 0 .corvette).1 = true := by
  refine ⟨fun now lastTime t => ?_, by norm_num [tryShoot, weaponFireRate],
    by norm_num [tryShoot, weaponFireRate]⟩
  by_cases h : now - lastTime ≥ 1000 / weaponFireRate t <;>
    simp [tryShoot, h]

/-- C6 witness: the gate theorem instantiated at now = 1000,
lastFireTime = 0, fireRate 1; the successful shot stores 1000. -/
theorem tryShoot_fire_gate_witness : (tryShoot 1000 0 .corvette).2 = 1000 :=
  (tryShoot_fire_gate.1 1000 0 .corvette).2 (by norm_num [tryShoot, weaponFireRate])

/-- C3: the claim says one bullet registers at most one hit per tick
(first ship in iteration order) and no subsequent ship is damaged.  On
the code, a bullet at (0,0) with two non-shooter ships both within
size/2 = 12 damages BOTH ships in the same collision pass: the forEach
has no early exit after the first hit. -/
theorem checkBulletCollisions_double_hit :
    checkBulletCollisions 0 0 (some shooterC) [shooterC, shipA, shipB]
      = [shooterC, { shipA with health := 49 }, { shipB with health := 49 }] := by
  norm_num [checkBulletCollisions, shooterC, shipA, shipB, distSq, shipSize, hitDamage,
    weaponDamage]

/-- C1: destroying ship B (id 2) removes it from this.ships, from
this.enemyShips and from the selection set, but ship A's followTarget
still references B afterwards and the follow branch of updateShip is
still active on the next tick, so A does not fall back to Idle. -/
theorem destroyShip_leaves_follow_dangling :
    (destroyShip shipBObj demoScene).ships = [1]
    ∧ (destroyShip shipBObj demoScene).enemyShips = []
    ∧ 2 ∉ (destroyShip shipBObj demoScene).selectedShips
    ∧ ((destroyShip shipBObj demoScene).objects.lookup 1).bind (·.followTarget) = some 2
    ∧ followBranchActive (destroyShip shipBObj demoScene) 1 = true := by
  decide

/-- C5: the damage a projectile applies on hit equals the shooter's
weapon.damage as it stood at spawn time (the stored shooter entry is
written once by shoot; weapon.damage is immutable at runtime, so the
hit-time read through that entry returns the spawn-time value), and the
default 10 applies exactly when the stored shooter entry is absent. -/
theorem shoot_damage_snapshot :
    (∀ (sid : ℕ) (t : ShipType) (sx sy tx ty : ℝ),
        hitDamage (shoot sid t sx sy tx ty).shooterType = spawnSnapshotDamage t)
    ∧ hitDamage none = 10 :=
  ⟨fun _ _ _ _ _ _ => rfl, rfl⟩

/-- approach keeps its result inside any interval that contains both the
current value and the target, provided maxDelta is nonnegative. -/
lemma approach_bounds {lo hi current target maxDelta : ℚ} (hc₁ : lo ≤ current)
    (hc₂ : current ≤ hi) (ht₁ : lo ≤ target) (ht₂ : target ≤ hi) (hδ : 0 ≤ maxDelta) :
    lo ≤ approach current target maxDelta ∧ approach current target maxDelta ≤ hi := by
  unfold approach
  split
  · exact ⟨le_min (by linarith) ht₁, (min_le_right _ _).trans ht₂⟩
  · split
    · exact ⟨ht₁.trans (le_max_right _ _), max_le (by linarith) ht₂⟩
    · exact ⟨hc₁, hc₂⟩

/-- Every configured ship speed is nonnegative. -/
lemma shipSpeed_nonneg (t : ShipType) : 0 ≤ shipSpeed t := by
  cases t <;> norm_num [shipSpeed]

/-- Every configured acceleration is positive. -/
lemma shipAcceleration_pos (t : ShipType) : 0 < shipAcceleration t := by
  cases t <;> norm_num [shipAcceleration]

/-- Every damage value that hit resolution can produce is nonnegative. -/
lemma hitDamage_nonneg (o : Option ShipType) : 0 ≤ hitDamage o := by
  cases o with
  | none => norm_num [hitDamage]
  | some t => cases t <;> norm_num [hitDamage, weaponDamage]

/-- One-step unfolding of checkBulletCollisions on a nonempty ship list. -/
lemma checkBulletCollisions_cons (bulletX bulletY : ℚ) (shooter : Option CombatShip)
    (ship : CombatShip) (rest : List CombatShip) :
    checkBulletCollisions bulletX bulletY shooter (ship :: rest)
      = if some ship.id = shooter.map (·.id) then
          ship :: checkBulletCollisions bulletX bulletY shooter rest
        else if distSq bulletX bulletY ship.x ship.y < (shipSize ship.type / 2)^2 then
          (if ship.health - hitDamage (shooter.map (·.type)) ≤ 0 then
            (match rest with
             | [] => []
             | next :: rest' => next :: checkBulletCollisions bulletX bulletY shooter rest')
          else { ship with health := ship.health - hitDamage (shooter.map (·.type)) }
            :: checkBulletCollisions bulletX bulletY shooter rest)
        else ship :: checkBulletCollisions bulletX bulletY shooter rest := by
  cases rest <;> (rw [checkBulletCollisions]; try rfl)

/-- Health-invariant preservation through one bullet's collision pass:
ships that remain in this.ships after checkBulletCollisions still
satisfy 0 ≤ health ≤ maxHealth (a hit only subtracts a nonnegative
damage, and a ship whose health drops to 0 or below is destroyed, i.e.
removed from the list, in the same pass). -/
lemma checkBulletCollisions_health (bulletX bulletY : ℚ) (shooter : Option CombatShip) :
    ∀ ships : List CombatShip,
      (∀ s ∈ ships, 0 ≤ s.health ∧ s.health ≤ s.maxHealth) →
      ∀ s' ∈ checkBulletCollisions bulletX bulletY shooter ships,
        0 ≤ s'.health ∧ s'.health ≤ s'.maxHealth := by
  intro ships
  induction ships using checkBulletCollisions.induct bulletX bulletY shooter with
  | case1 =>
    intro _ s' hs'
    simp only [checkBulletCollisions, List.not_mem_nil] at hs'
  | case2 ship rest hid ih =>
    intro hinv s' hs'
    rw [checkBulletCollisions_cons, if_pos hid] at hs'
    rcases List.mem_cons.mp hs' with h | h
    · exact h ▸ hinv ship (List.mem_cons_self _ _)
    · exact ih (fun s hs => hinv s (List.mem_cons_of_mem _ hs)) s' h
  | case3 ship hid hdist =>
    rename_i damage hval hdead
    intro _ s' hs'
    have hdead' : ship.health - hitDamage (shooter.map (·.type)) ≤ 0 := hdead
    rw [checkBulletCollisions_cons, if_neg hid, if_pos hdist, if_pos hdead'] at hs'
    simp at hs'
  | case4 ship hid hdist =>
    rename_i damage hval hdead next rest' ih
    intro hinv s' hs'
    have hdead' : ship.health - hitDamage (shooter.map (·.type)) ≤ 0 := hdead
    rw [checkBulletCollisions_cons, if_neg hid, if_pos hdist, if_pos hdead'] at hs'
    rcases List.mem_cons.mp hs' with h | h
    · exact h ▸ hinv next (List.mem_cons_of_mem _ (List.mem_cons_self _ _))
    · exact ih (fun s hs =>
        hinv s (List.mem_cons_of_mem _ (List.mem_cons_of_mem _ hs))) s' h
  | case5 ship rest hid hdist =>
    rename_i damage hval halive ih
    intro hinv s' hs'
    have halive' : ¬ ship.health - hitDamage (shooter.map (·.type)) ≤ 0 := halive
    rw [checkBulletCollisions_cons, if_neg hid, if_pos hdist, if_neg halive'] at hs'
    rcases List.mem_cons.mp hs' with h | h
    · subst h
      have hd := hitDamage_nonneg (shooter.map (·.type))
      have hh := (hinv ship (List.mem_cons_self _ _)).2
      constructor
      · simpa using le_of_lt (lt_of_not_le halive')
      · simpa using by linarith
    · exact ih (fun s hs => hinv s (List.mem_cons_of_mem _ hs)) s' h
  | case6 ship rest hid hdist ih =>
    intro hinv s' hs'
    rw [checkBulletCollisions_cons, if_neg hid, if_neg hdist] at hs'
    rcases List.mem_cons.mp hs' with h | h
    · exact h ▸ hinv ship (List.mem_cons_self _ _)
    · exact ih (fun s hs => hinv s (List.mem_cons_of_mem _ hs)) s' h

/-- C4: the two quantitative state invariants.  (i) The speed step of
updateShip keeps 0 ≤ currentSpeed ≤ type.speed whenever it held before
and the tick length is nonnegative — no other code writes currentSpeed.
(ii) The collision pass keeps 0 ≤ health ≤ maxHealth for every ship
still in the ship list — health is written nowhere else, and a ship
whose health drops to 0 or below is removed in the same tick. -/
theorem speed_health_invariant :
    (∀ (t : ShipType) (currentSpeed : ℚ) (hasTarget : Bool) (dt : ℚ),
        0 ≤ currentSpeed → currentSpeed ≤ shipSpeed t → 0 ≤ dt →
        0 ≤ speedUpdate t currentSpeed hasTarget dt
          ∧ speedUpdate t currentSpeed hasTarget dt ≤ shipSpeed t)
    ∧ (∀ (bulletX bulletY : ℚ) (shooter : Option CombatShip) (ships : List CombatShip),
        (∀ s ∈ ships, 0 ≤ s.health ∧ s.health ≤ s.maxHealth) →
        ∀ s' ∈ checkBulletCollisions bulletX bulletY shooter ships,
          0 ≤ s'.health ∧ s'.health ≤ s'.maxHealth) := by
  constructor
  · intro t currentSpeed hasTarget dt h0 hs hdt
    unfold speedUpdate
    have hdes₁ : (0:ℚ) ≤ if hasTarget then shipSpeed t else 0 := by
      split
      · exact shipSpeed_nonneg t
      · exact le_refl 0
    have hdes₂ : (if hasTarget then shipSpeed t else 0) ≤ shipSpeed t := by
      split
      · exact le_refl _
      · exact shipSpeed_nonneg t
    have haccel : 0 ≤ max currentSpeed (if hasTarget then shipSpeed t else 0)
        / (shipAcceleration t / 100) := by
      apply div_nonneg
      · exact le_trans h0 (le_max_left _ _)
      · have := shipAcceleration_pos t
        positivity
    exact approach_bounds h0 hs hdes₁ hdes₂ (mul_nonneg haccel hdt)
  · exact fun bulletX bulletY shooter ships hinv =>
      checkBulletCollisions_health bulletX bulletY shooter ships hinv

/-- C4 witness: the speed invariant at corvette, currentSpeed 0, a live
target and dt = 1; the health invariant at a single corvette hit by an
ownerless bullet (damage 10, health 100 → 90, still within bounds). -/
theorem speed_health_invariant_witness :
    (0 ≤ speedUpdate .corvette 0 true 1
      ∧ speedUpdate .corvette 0 true 1 ≤ shipSpeed .corvette)
    ∧ (0 ≤ ({ invDemoShip with health := 90 } : CombatShip).health
      ∧ ({ invDemoShip with health := 90 } : CombatShip).health
          ≤ ({ invDemoShip with health := 90 } : CombatShip).maxHealth) :=
  ⟨speed_health_invariant.1 .corvette 0 true 1 (by norm_num)
      (by norm_num [shipSpeed]) (by norm_num),
   speed_health_invariant.2 0 0 none [invDemoShip]
      (by norm_num [invDemoShip])
      { invDemoShip with health := 90 }
      (by norm_num [checkBulletCollisions, invDemoShip, distSq, shipSize, hitDamage,
        Option.some_ne_none])⟩

/-- The first wrap loop of approachRotation exits with a value ≤ π. -/
lemma wrapDown_le (d : ℝ) : wrapDown d ≤ Real.pi := by
  induction d using wrapDown.induct with
  | case1 d h ih => rw [wrapDown, if_pos h]; exact ih
  | case2 d h => rw [wrapDown, if_neg h]; exact not_lt.mp h

/-- The second wrap loop of approachRotation exits with a value ≥ −π. -/
lemma wrapUp_ge (d : ℝ) : -Real.pi ≤ wrapUp d := by
  induction d using wrapUp.induct with
  | case1 d h ih => rw [wrapUp, if_pos h]; exact ih
  | case2 d h => rw [wrapUp, if_neg h]; exact not_lt.mp h

/-- The second wrap loop preserves the upper bound π. -/
lemma wrapUp_le (d : ℝ) : d ≤ Real.pi → wrapUp d ≤ Real.pi := by
  induction d using wrapUp.induct with
  | case1 d hlt ih =>
    intro _
    rw [wrapUp, if_pos hlt]
    exact ih (by linarith [Real.pi_pos])
  | case2 d hlt =>
    intro h
    rw [wrapUp, if_neg hlt]
    exact h

/-- −π is a fixed point of the first wrap loop. -/
lemma wrapDown_neg_pi : wrapDown (-Real.pi) = -Real.pi := by
  rw [wrapDown, if_neg (by linarith [Real.pi_pos])]

/-- −π is a fixed point of the second wrap loop. -/
lemma wrapUp_neg_pi : wrapUp (-Real.pi) = -Real.pi := by
  rw [wrapUp, if_neg (lt_irrefl _)]

/-- C7 counterexample: the claim wraps the difference into (−π, π], so at
current = 0, target = −π it predicts a positive step (the canonical wrap
of −π into (−π, π] is +π); the code keeps the representative −π and
steps negatively. -/
theorem approachRotation_sign_counterexample :
    Real.sign (specWrapIoc (-Real.pi - 0)) = 1
    ∧ Real.sign (approachRotation 0 (-Real.pi) (1/10) - 0) = -1 := by
  constructor
  · have hval : specWrapIoc (-Real.pi - 0) = Real.pi := by
      unfold specWrapIoc
      have hq : (Real.pi - (-Real.pi - 0)) / (2 * Real.pi) = 1 := by
        rw [div_eq_one_iff_eq (by positivity)]
        ring
      rw [hq, Int.floor_one]
      push_cast
      ring
    rw [hval]
    exact Real.sign_of_pos Real.pi_pos
  · have hval : approachRotation 0 (-Real.pi) (1/10) = -(1/10) := by
      simp only [approachRotation]
      rw [sub_zero, wrapDown_neg_pi, wrapUp_neg_pi]
      rw [if_neg (by
        rw [abs_neg, abs_of_pos Real.pi_pos]
        exact not_lt.mpr (by linarith [Real.pi_gt_three]))]
      rw [Real.sign_of_neg (by linarith [Real.pi_pos])]
      ring
    rw [hval]
    exact Real.sign_of_neg (by norm_num)

/-- C7 (amended): the code's loops wrap the difference into the closed
interval [−π, π] (a difference that is an exact odd multiple of π keeps
the sign of its representative instead of being canonicalised into
(−π, π]).  With that wrap d: if |d| < maxDelta the rotation snaps
exactly to the target; otherwise the applied step is Real.sign d ·
maxDelta, whose sign equals the sign of d. -/
theorem approachRotation_shorter_path (current target maxDelta : ℝ) (hm : 0 < maxDelta) :
    (-Real.pi ≤ wrapUp (wrapDown (target - current))
      ∧ wrapUp (wrapDown (target - current)) ≤ Real.pi)
    ∧ (|wrapUp (wrapDown (target - current))| < maxDelta →
        approachRotation current target maxDelta = target)
    ∧ (maxDelta ≤ |wrapUp (wrapDown (target - current))| →
        approachRotation current target maxDelta - current
            = Real.sign (wrapUp (wrapDown (target - current))) * maxDelta
        ∧ Real.sign (approachRotation current target maxDelta - current)
            = Real.sign (wrapUp (wrapDown (target - current)))) := by
  refine ⟨⟨wrapUp_ge _, wrapUp_le _ (wrapDown_le _)⟩, ?_, ?_⟩
  · intro h
    simp only [approachRotation]
    rw [if_pos h]
  · intro h
    have hstep : approachRotation current target maxDelta - current
        = Real.sign (wrapUp (wrapDown (target - current))) * maxDelta := by
      simp only [approachRotation]
      rw [if_neg (not_lt.mpr h)]
      ring
    refine ⟨hstep, ?_⟩
    rw [hstep]
    rcases lt_trichotomy (wrapUp (wrapDown (target - current))) 0 with hd | hd | hd
    · rw [Real.sign_of_neg hd, Real.sign_of_neg (by linarith)]
    · rw [hd] at h
      simp at h
      linarith
    · rw [Real.sign_of_pos hd, Real.sign_of_pos (by linarith)]

/-- C7 witness: the amended theorem instantiated at current = 0,
target = 0, maxDelta = 1. -/
theorem approachRotation_shorter_path_witness :
    -Real.pi ≤ wrapUp (wrapDown ((0:ℝ) - 0)) ∧ wrapUp (wrapDown ((0:ℝ) - 0)) ≤ Real.pi :=
  (approachRotation_shorter_path 0 0 1 one_pos).1

/-- C8: while currentSpeed > 0, one orbit tick advances the stored angle
by exactly (currentSpeed / radius)·(Δt in seconds) and places the ship
back on the circle, so its distance to the center is exactly the radius;
a tick with currentSpeed = 0 (more generally, not positive) leaves both
the position and the descriptor unchanged. -/
theorem updateCircularPaths_orbit (posX posY currentSpeed : ℝ) (pd : OrbitRec)
    (delta : ℝ) (hr : 0 ≤ pd.radius) :
    (0 < currentSpeed →
      (updateCircularPaths posX posY currentSpeed pd delta).2.startAngle
          = pd.startAngle + currentSpeed / pd.radius * (delta / 1000)
      ∧ rdist (updateCircularPaths posX posY currentSpeed pd delta).1.1
          (updateCircularPaths posX posY currentSpeed pd delta).1.2
          pd.centerX pd.centerY = pd.radius)
    ∧ (¬ 0 < currentSpeed →
        updateCircularPaths posX posY currentSpeed pd delta = ((posX, posY), pd)) := by
  constructor
  · intro hs
    simp only [updateCircularPaths, if_pos hs]
    refine ⟨trivial, ?_⟩
    unfold rdist
    have hsq : (pd.centerX + Real.cos (pd.startAngle + currentSpeed / pd.radius
          * (delta / 1000)) * pd.radius - pd.centerX)^2
        + (pd.centerY + Real.sin (pd.startAngle + currentSpeed / pd.radius
          * (delta / 1000)) * pd.radius - pd.centerY)^2
        = pd.radius^2 := by
      have hpyth := Real.sin_sq_add_cos_sq
        (pd.startAngle + currentSpeed / pd.radius * (delta / 1000))
      nlinarith [hpyth]
    rw [hsq]
    exact Real.sqrt_sq hr
  · intro hs
    simp only [updateCircularPaths, if_neg hs]

/-- C8 witness: the orbit theorem at radius 1, speed 1, center (0,0),
angle 0, delta 1. -/
theorem updateCircularPaths_orbit_witness :
    rdist (updateCircularPaths 1 0 1 ⟨0, 0, 1, 0⟩ 1).1.1
        (updateCircularPaths 1 0 1 ⟨0, 0, 1, 0⟩ 1).1.2 0 0 = 1 :=
  ((updateCircularPaths_orbit 1 0 1 ⟨0, 0, 1, 0⟩ 1 zero_le_one).1 one_pos).2

/-- C9: the claim (and the code's own comment) say the per-tick follow
target is a point BEHIND the followed ship, followedPos minus the offset
magnitude times the facing direction.  The code sets offsetDistance to
−200 and subtracts cos·offsetDistance, which adds 200·facing: with the
followed ship at the origin facing rotation 0 (facing = (1,0)), the
computed target is (200, 0) — 200 px in FRONT — and in general the
target is followedPos + 200·(cos rot, sin rot). -/
theorem followTargetPos_in_front :
    followTargetPos 0 0 0 = (200, 0)
    ∧ (∀ (fx fy rot : ℝ),
        followTargetPos fx fy rot = (fx + 200 * Real.cos rot, fy + 200 * Real.sin rot)) := by
  constructor
  · simp [followTargetPos]
  · intro fx fy rot
    simp only [followTargetPos, Prod.mk.injEq]
    constructor <;> ring

/-- C2: when the gesture ends while the waypoint lock is active, the
waypoint appended to the selected ship is the original gesture start
point, not the locked waypoint position: finishRotation runs
unlockWaypoint (clearing isWaypointLocked) before it selects the
movement target, so the locked branch of the selection is unreachable.
Here the lock is active with locked position (500, 500) and gesture
start (10, 10); the resulting waypoint is (10, 10). -/
theorem finishRotation_ignores_lock :
    lockedGesture.isWaypointLocked = true
    ∧ ((lockedGesture.lockedWaypointPositionX, lockedGesture.lockedWaypointPositionY)
        ≠ ((10:ℝ), (10:ℝ)))
    ∧ (finishRotation lockedGesture 60 10 false [demoCmdShip]).2.map (·.waypoints)
        = [[((10:ℝ), (10:ℝ))]] := by
  refine ⟨rfl, ?_, ?_⟩
  · simp only [lockedGesture, ne_eq, Prod.mk.injEq]
    norm_num
  · simp only [finishRotation, lockedGesture, demoCmdShip, exitTargetingMode,
      unlockWaypoint, finishRotationShip, List.map_cons, List.map_nil]
    norm_num
    split <;> rfl

/-- C10 counterexample: a ship with one queued waypoint and its one
facing direction; the enter-orbit command startCircularPath clears
waypoints but leaves waypointDirections untouched, so afterwards the
two parallel lists have different lengths (0 and 1). -/
theorem startCircularPath_desyncs_lengths :
    (startCircularPath orbitDemoShip 3 4 5).waypoints.length = 0
    ∧ (startCircularPath orbitDemoShip 3 4 5).waypointDirections.length = 1 := by
  constructor <;> simp [startCircularPath, orbitDemoShip]

/-- C10 (amended): waypoints and waypointDirections have equal length
after ship creation, after every issue/append waypoint command, after
every follow command, and after every tick movement step — but NOT after
the enter-orbit command, startCircularPath, which clears waypoints
without clearing waypointDirections (see the counterexample). -/
theorem waypoint_lengths_preserved :
    (∀ (t : ShipType) (x y : ℝ) (newId : ℕ),
        (createShip t x y newId).waypoints.length
          = (createShip t x y newId).waypointDirections.length)
    ∧ (∀ (g : GestureState) (cx cy : ℝ) (append : Bool) (s : CmdShip),
        s.waypoints.length = s.waypointDirections.length →
        (finishRotationShip g cx cy append s).waypoints.length
          = (finishRotationShip g cx cy append s).waypointDirections.length)
    ∧ (∀ (s : CmdShip) (eid : ℕ) (ex ey erot : ℝ),
        (updateShipFollowingPosition s eid ex ey erot).waypoints.length
          = (updateShipFollowingPosition s eid ex ey erot).waypointDirections.length)
    ∧ (∀ (s : CmdShip) (target : Option (ℝ × ℝ)) (speed delta : ℝ),
        s.waypoints.length = s.waypointDirections.length →
        (moveToward s target speed delta).1.waypoints.length
          = (moveToward s target speed delta).1.waypointDirections.length) := by
  refine ⟨fun t x y newId => rfl, ?_, fun s eid ex ey erot => rfl, ?_⟩
  · intro g cx cy append s h
    simp only [finishRotationShip]
    repeat' split
    all_goals simp_all [List.length_append]
  · intro s target speed delta h
    cases target with
    | none => simpa [moveToward] using h
    | some p =>
      obtain ⟨tx, ty⟩ := p
      simp only [moveToward]
      split
      · simp [arriveAtWaypoint, List.length_tail, h]
      · split
        · simp [arriveAtWaypoint, List.length_tail, h]
        · simpa using h

/-- C10 witness: the amended theorem applied to a ship with empty (hence
equal-length) lists and an idle tick. -/
theorem waypoint_lengths_preserved_witness :
    demoCmdShip.waypoints.length = demoCmdShip.waypointDirections.length
    ∧ (moveToward demoCmdShip none 0 0).1.waypoints.length
        = (moveToward demoCmdShip none 0 0).1.waypointDirections.length :=
  ⟨rfl, waypoint_lengths_preserved.2.2.2 demoCmdShip none 0 0 rfl⟩

end Sim
